import Mathlib

/-!
Shallow embedding of `src/index.ts` of the google-calendar-mcp-server
repository: the tool catalog, the CallTool dispatch boundary, and the three
handlers (getAuthUrl, listEvents, createEvent), together with an explicit
log of the remote calendar requests a handler issues.

Modelling conventions:
* A JS object field that may be absent is an `Option`; JS `a || b` on strings
  is falsy-aware (`"" → b`), on numbers `0 → b`.
* The protocol's `arguments` mapping is modelled as the record `Args` of the
  fields the handlers read; an invocation carrying no arguments is the record
  with every field absent.
* The remote calendar service and the OAuth2 client library are external
  collaborators: their responses are inputs (`RemoteBehavior`), and the
  requests the code issues are collected in a `List RemoteReq` log.
-/

namespace GCalMCP

/-- JS string disjunction `a || d` where `a` may be undefined: an absent or
empty (falsy) string falls back to the default. -/
def jsOrS : Option String → String → String
  | some s, d => if s = "" then d else s
  | none, d => d

/-- JS numeric disjunction `a || d` where `a` may be undefined: absent or
zero (falsy) falls back to the default. -/
def jsOrN : Option Nat → Nat → Nat
  | some n, d => if n = 0 then d else n
  | none, d => d

/-- JS string disjunction `a || b` where both sides may be undefined, as in
`event.start?.dateTime || event.start?.date`. -/
def jsOrOpt : Option String → Option String → Option String
  | some s, b => if s = "" then b else some s
  | none, b => b

/-- JS string interpolation of a possibly-undefined value. -/
def jsShow : Option String → String
  | some s => s
  | none => "undefined"

/-- One element of a ToolResult's `content` array. -/
structure ContentItem where
  type : String
  text : String
  deriving Repr, DecidableEq

/-- The result envelope returned to the protocol layer. `isError` is `none`
when the JS object carries no `isError` key (the success results), and
`some true` on the error path. -/
structure ToolResult where
  content : List ContentItem
  isError : Option Bool
  deriving Repr, DecidableEq

/-- The `arguments` object of a tool invocation: the union of the fields any
handler reads, each possibly absent. -/
structure Args where
  calendarId : Option String := none
  maxResults : Option Nat := none
  timeMin : Option String := none
  timeMax : Option String := none
  summary : Option String := none
  description : Option String := none
  startDateTime : Option String := none
  endDateTime : Option String := none
  attendees : Option (List String) := none
  deriving Repr, DecidableEq

/-- An invocation carrying no arguments. -/
def emptyArgs : Args := {}

/-- Credential state: the OAuth2 client as configured by `setupAuth`.
`refreshToken` is `GOOGLE_REFRESH_TOKEN` when set. -/
structure Cred where
  refreshToken : Option String
  deriving Repr, DecidableEq

/-- `start`/`end` of a remote event record (Google `EventDateTime`). -/
structure RemoteEventTime where
  dateTime : Option String := none
  date : Option String := none
  deriving Repr, DecidableEq

/-- An attendee of a remote event record. -/
structure RemoteAttendee where
  email : Option String
  deriving Repr, DecidableEq

/-- A remote event record as returned by the "list events" call. -/
structure RemoteEvent where
  id : Option String := none
  summary : Option String := none
  start : Option RemoteEventTime := none
  «end» : Option RemoteEventTime := none
  description : Option String := none
  attendees : Option (List RemoteAttendee) := none
  deriving Repr, DecidableEq

/-- The CalendarEvent view model produced by the listEvents reshaping map. -/
structure CalendarEvent where
  id : Option String
  summary : Option String
  start : Option String
  «end» : Option String
  description : Option String
  attendees : Option (List (Option String))
  deriving Repr, DecidableEq

/-- An attendee entry of the insert payload: `{ email }`. -/
structure AttendeeEmail where
  email : String
  deriving Repr, DecidableEq

/-- `start`/`end` of the insert payload: `{ dateTime, timeZone: 'UTC' }`. -/
structure EventTimePayload where
  dateTime : Option String
  timeZone : String
  deriving Repr, DecidableEq

/-- The event payload `createEvent` builds for the remote insert call. -/
structure EventPayload where
  summary : Option String
  description : Option String
  start : EventTimePayload
  «end» : EventTimePayload
  attendees : Option (List AttendeeEmail)
  deriving Repr, DecidableEq

/-- A request issued to the remote calendar service. -/
inductive RemoteReq where
  | listReq (calendarId : String) (timeMin : String) (timeMax : Option String)
      (maxResults : Nat) (singleEvents : Bool) (orderBy : String)
  | insertReq (calendarId : String) (requestBody : EventPayload)
  deriving Repr, DecidableEq

/-- `response.data` of the remote insert call. -/
structure InsertResp where
  id : Option String := none
  htmlLink : Option String := none
  deriving Repr, DecidableEq

/-- The external remote service's behaviour for this invocation: what each
remote call would return (`Except.error` = the call raises). `listItems` is
`response.data.items`, which may be absent. -/
structure RemoteBehavior where
  listItems : Except String (Option (List RemoteEvent))
  insertData : Except String InsertResp
  deriving Repr

/-- Everything outside the code that an invocation observes: the current
instant (`new Date().toISOString()`), the credential state, and the remote
service's behaviour. -/
structure Env where
  now : String
  cred : Cred
  remote : RemoteBehavior
  deriving Repr

/-- Modelled from the spec: the external google-auth-library client used for
an authorized remote call (the library is not part of src/). Per the spec's
Credential Manager contract, if no refresh token is configured the client
fails with an authentication-required condition before any remote call is
attempted; otherwise the request is issued and the remote's answer (success
or raised failure) is returned. -/
def authorizedCall {α : Type} (cred : Cred) (req : RemoteReq)
    (resp : Except String α) : Except String α × List RemoteReq :=
  match cred.refreshToken with
  | none => (Except.error "authentication required: no refresh token configured", [])
  | some _ => (resp, [req])

/-- The reshaping map of `listEvents` (source lines 192–199): one remote
event record to one CalendarEvent view-model record, with JS `||` choosing
between `dateTime` and `date`. -/
def reshapeEvent (e : RemoteEvent) : CalendarEvent :=
  { id := e.id
    summary := e.summary
    start := jsOrOpt (e.start.bind RemoteEventTime.dateTime) (e.start.bind RemoteEventTime.date)
    «end» := jsOrOpt (e.«end».bind RemoteEventTime.dateTime) (e.«end».bind RemoteEventTime.date)
    description := e.description
    attendees := e.attendees.map (List.map RemoteAttendee.email) }

/-- Renders a JSON string value, or JSON null for an absent value. Models the
behaviour of `JSON.stringify` on a possibly-undefined object property value
(string escaping is not modelled; no claim constrains it). -/
def jsonOptStr : Option String → String
  | some s => "\"" ++ s ++ "\""
  | none => "null"

/-- Renders one CalendarEvent as a JSON object, dropping absent properties as
`JSON.stringify` does (indentation and escaping are not modelled; no claim
constrains the exact rendering). -/
def jsonOfCalendarEvent (c : CalendarEvent) : String :=
  let field := fun (k : String) (v : Option String) =>
    match v with
    | none => ([] : List String)
    | some s => ["\"" ++ k ++ "\": \"" ++ s ++ "\""]
  let attendeesField :=
    match c.attendees with
    | none => ([] : List String)
    | some l => ["\"attendees\": [" ++ String.intercalate ", " (l.map jsonOptStr) ++ "]"]
  "\x7b" ++ String.intercalate ", "
      (field "id" c.id ++ field "summary" c.summary ++ field "start" c.start ++
        field "end" c.«end» ++ field "description" c.description ++ attendeesField)
    ++ "\x7d"

/-- Renders the mapped event sequence as the single JSON array text of the
listEvents success result (models `JSON.stringify(events.map(...), null, 2)`
up to whitespace and escaping). -/
def serializeEvents (l : List CalendarEvent) : String :=
  "[" ++ String.intercalate ", " (l.map jsonOfCalendarEvent) ++ "]"

/-- The `getAuthUrl` handler's scope list (source line 158). -/
def calendarScopes : List String := ["https://www.googleapis.com/auth/calendar"]

/-- Modelled from the spec: `generateAuthUrl` of the external
google-auth-library OAuth2 client (not part of src/) — per the spec's
Credential Manager contract a deterministic, pure construction of the OAuth2
authorization-code URL carrying the requested access type and scopes as query
parameters. -/
def generateAuthUrl (accessType : String) (scopes : List String) : String :=
  "https://accounts.google.com/o/oauth2/v2/auth?" ++
    "access_type=" ++ accessType ++
    "&scope=" ++ String.intercalate "%20" scopes

/-- The `getAuthUrl` handler (source lines 157–172). It issues no remote
calendar request and succeeds in every credential state. -/
def getAuthUrl : Except String ToolResult × List RemoteReq :=
  let authUrl := generateAuthUrl "offline" calendarScopes
  (Except.ok
    { content := [ContentItem.mk "text"
        ("Please visit this URL to authorize the application:\n" ++ authUrl ++
          "\n\nAfter authorization, set the GOOGLE_REFRESH_TOKEN environment variable with the refresh token.")]
      isError := none }, [])

/-- The argument object of the `calendar.events.list` call (source lines
177–184), with the JS `||` defaults applied at the call site. -/
def listRequest (env : Env) (args : Args) : RemoteReq :=
  RemoteReq.listReq (jsOrS args.calendarId "primary")
    (jsOrS args.timeMin env.now) args.timeMax (jsOrN args.maxResults 10) true "startTime"

/-- The `listEvents` handler (source lines 174–203): builds the remote list
request with JS `||` defaults, issues it through the authorized client, and
reshapes `response.data.items || []` into the view model. -/
def listEvents (env : Env) (args : Args) : Except String ToolResult × List RemoteReq :=
  match authorizedCall env.cred (listRequest env args) env.remote.listItems with
  | (Except.error e, log) => (Except.error e, log)
  | (Except.ok items, log) =>
      let events := items.getD []
      (Except.ok
        { content := [{ type := "text", text := serializeEvents (events.map reshapeEvent) }]
          isError := none }, log)

/-- The event payload `createEvent` builds (source lines 208–220) from the
arguments as given — no required-field check is made. -/
def insertPayloadOf (args : Args) : EventPayload :=
  { summary := args.summary
    description := args.description
    start := { dateTime := args.startDateTime, timeZone := "UTC" }
    «end» := { dateTime := args.endDateTime, timeZone := "UTC" }
    attendees := args.attendees.map (List.map (fun email => AttendeeEmail.mk email)) }

/-- The argument object of the `calendar.events.insert` call (source lines
222–225). -/
def insertRequest (args : Args) : RemoteReq :=
  RemoteReq.insertReq (jsOrS args.calendarId "primary") (insertPayloadOf args)

/-- The `createEvent` handler (source lines 205–235): builds the insert
payload from the arguments as given, issues the insert through the
authorized client, and reports the new record's id and link. -/
def createEvent (env : Env) (args : Args) : Except String ToolResult × List RemoteReq :=
  match authorizedCall env.cred (insertRequest args) env.remote.insertData with
  | (Except.error e, log) => (Except.error e, log)
  | (Except.ok data, log) =>
      (Except.ok
        { content := [ContentItem.mk "text"
            ("Event created successfully!\nEvent ID: " ++ jsShow data.id ++
              "\nEvent Link: " ++ jsShow data.htmlLink)]
          isError := none }, log)

/-- The body of the CallTool request handler's `try` block (source lines
132–142): the switch over the tool name, with the default case raising
`Unknown tool: <name>`. -/
def dispatchInner (env : Env) (name : String) (args : Args) :
    Except String ToolResult × List RemoteReq :=
  if name = "get_auth_url" then getAuthUrl
  else if name = "list_events" then listEvents env args
  else if name = "create_event" then createEvent env args
  else (Except.error ("Unknown tool: " ++ name), [])

/-- The error envelope built in the `catch` branch (source lines 143–153). -/
def errResult (msg : String) : ToolResult :=
  { content := [{ type := "text", text := "Error: " ++ msg }], isError := some true }

/-- The whole CallTool request handler (source lines 129–154): the switch
wrapped in try/catch, so every raised condition becomes an `errResult` and
nothing escapes. -/
def handleCallTool (env : Env) (name : String) (args : Args) :
    ToolResult × List RemoteReq :=
  match dispatchInner env name args with
  | (Except.ok res, log) => (res, log)
  | (Except.error msg, log) => (errResult msg, log)

/-- A declared default value in an input schema (string or number). -/
inductive SchemaDefault where
  | str (s : String)
  | num (n : Nat)
  deriving Repr, DecidableEq

/-- One property of a tool's input schema, as declared in the catalog. -/
structure PropSchema where
  type : String
  description : Option String := none
  default : Option SchemaDefault := none
  items : Option String := none
  deriving Repr, DecidableEq

/-- A tool's input schema: `type: object` with named properties and a list
of required property names. -/
structure InputSchema where
  type : String
  properties : List (String × PropSchema)
  required : List String := []
  deriving Repr, DecidableEq

/-- One entry of the tool catalog. -/
structure ToolDecl where
  name : String
  description : String
  inputSchema : InputSchema
  deriving Repr, DecidableEq

/-- The catalog returned by the ListTools request handler (source lines
49–127), in the source's order with the source's declarations. -/
def listTools : List ToolDecl :=
  [ { name := "list_events"
      description := "List upcoming events from Google Calendar"
      inputSchema :=
        { type := "object"
          properties :=
            [ ("calendarId", { type := "string", description := some "Calendar ID (default: primary)", default := some (SchemaDefault.str "primary") })
            , ("maxResults", { type := "number", description := some "Maximum number of events to return", default := some (SchemaDefault.num 10) })
            , ("timeMin", { type := "string", description := some "Lower bound for event start time (ISO 8601)" })
            , ("timeMax", { type := "string", description := some "Upper bound for event start time (ISO 8601)" }) ] } }
  , { name := "create_event"
      description := "Create a new event in Google Calendar"
      inputSchema :=
        { type := "object"
          properties :=
            [ ("calendarId", { type := "string", description := some "Calendar ID (default: primary)", default := some (SchemaDefault.str "primary") })
            , ("summary", { type := "string", description := some "Event title" })
            , ("description", { type := "string", description := some "Event description" })
            , ("startDateTime", { type := "string", description := some "Start date and time (ISO 8601)" })
            , ("endDateTime", { type := "string", description := some "End date and time (ISO 8601)" })
            , ("attendees", { type := "array", description := some "List of attendee email addresses", items := some "string" }) ]
          required := ["summary", "startDateTime", "endDateTime"] } }
  , { name := "get_auth_url"
      description := "Get OAuth2 authorization URL for Google Calendar access"
      inputSchema := { type := "object", properties := [] } } ]

/-! Concrete environments used to instantiate the universally quantified
theorems below. -/

/-- A remote service that answers both calls successfully. -/
def okRemote : RemoteBehavior :=
  { listItems := Except.ok (some [])
    insertData := Except.ok { id := some "evt1", htmlLink := some "https://calendar.google.com/event?eid=evt1" } }

/-- Credential state `Authorized`: a refresh token is configured. -/
def envAuthorized : Env :=
  { now := "2024-01-01T00:00:00.000Z", cred := { refreshToken := some "rt" }, remote := okRemote }

/-- Credential state `Configured`: no refresh token. -/
def envConfigured : Env :=
  { now := "2024-01-01T00:00:00.000Z", cred := { refreshToken := none }, remote := okRemote }

/-- Authorized, but both remote calls raise a network failure. -/
def envNetFail : Env :=
  { now := "2024-01-01T00:00:00.000Z", cred := { refreshToken := some "rt" }
    remote := { listItems := Except.error "Network error", insertData := Except.error "Network error" } }

/-- The empty insert payload built from an invocation with no arguments. -/
def emptyInsertPayload : EventPayload :=
  { summary := none, description := none
    start := { dateTime := none, timeZone := "UTC" }
    «end» := { dateTime := none, timeZone := "UTC" }
    attendees := none }

/-! Helper lemmas: every branch of the dispatch produces either a raised
condition or a success result with a single text content item and no
`isError` key. -/

lemma listEvents_shape (env : Env) (args : Args) :
    (∃ msg log, listEvents env args = (Except.error msg, log)) ∨
    (∃ t log, listEvents env args =
      (Except.ok { content := [ContentItem.mk "text" t], isError := none }, log)) := by
  obtain ⟨now, ⟨rt⟩, li, ins⟩ := env
  cases rt with
  | none => exact Or.inl ⟨_, _, rfl⟩
  | some r =>
    cases li with
    | error e => exact Or.inl ⟨_, _, rfl⟩
    | ok items => exact Or.inr ⟨_, _, rfl⟩

lemma createEvent_shape (env : Env) (args : Args) :
    (∃ msg log, createEvent env args = (Except.error msg, log)) ∨
    (∃ t log, createEvent env args =
      (Except.ok { content := [ContentItem.mk "text" t], isError := none }, log)) := by
  obtain ⟨now, ⟨rt⟩, li, ins⟩ := env
  cases rt with
  | none => exact Or.inl ⟨_, _, rfl⟩
  | some r =>
    cases ins with
    | error e => exact Or.inl ⟨_, _, rfl⟩
    | ok data => exact Or.inr ⟨_, _, rfl⟩

lemma dispatchInner_shape (env : Env) (name : String) (args : Args) :
    (∃ msg log, dispatchInner env name args = (Except.error msg, log)) ∨
    (∃ t log, dispatchInner env name args =
      (Except.ok { content := [ContentItem.mk "text" t], isError := none }, log)) := by
  unfold dispatchInner
  split
  · exact Or.inr ⟨_, _, rfl⟩
  · split
    · exact listEvents_shape env args
    · split
      · exact createEvent_shape env args
      · exact Or.inl ⟨_, _, rfl⟩

/-- C1: whenever the dispatched handler (or the unknown-tool default branch)
raises a condition with message `msg`, the CallTool boundary returns exactly
the envelope with a single text item `"Error: " ++ msg` and `isError = true`;
`handleCallTool` is a total function, so no condition escapes it. -/
theorem C1_error_boundary (env : Env) (name : String) (args : Args)
    (msg : String) (log : List RemoteReq)
    (h : dispatchInner env name args = (Except.error msg, log)) :
    handleCallTool env name args =
      ({ content := [ContentItem.mk "text" ("Error: " ++ msg)], isError := some true }, log) := by
  simp [handleCallTool, h, errResult]

/-- Witness for C1 at a concrete input: an authorized `list_events` call whose
remote service raises a network failure is answered with the error envelope. -/
theorem C1_error_boundary_witness :
    handleCallTool envNetFail "list_events" emptyArgs =
      ({ content := [ContentItem.mk "text" ("Error: " ++ "Network error")], isError := some true },
        [RemoteReq.listReq "primary" "2024-01-01T00:00:00.000Z" none 10 true "startTime"]) :=
  C1_error_boundary envNetFail "list_events" emptyArgs "Network error"
    [RemoteReq.listReq "primary" "2024-01-01T00:00:00.000Z" none 10 true "startTime"] rfl

/-- C2: an invocation whose name is none of the three registered tools is
answered with the envelope `isError = true`, single text item
`"Error: Unknown tool: " ++ name`, and no remote request is issued (no
handler runs). -/
theorem C2_unknown_tool (env : Env) (args : Args) (name : String)
    (h1 : name ≠ "get_auth_url") (h2 : name ≠ "list_events") (h3 : name ≠ "create_event") :
    handleCallTool env name args =
      ({ content := [ContentItem.mk "text" ("Error: " ++ ("Unknown tool: " ++ name))]
         isError := some true }, []) := by
  simp [handleCallTool, dispatchInner, h1, h2, h3, errResult]

/-- Witness for C2 at the spec's concrete input `delete_event`. -/
theorem C2_unknown_tool_witness :
    handleCallTool envAuthorized "delete_event" emptyArgs =
      ({ content := [ContentItem.mk "text" ("Error: " ++ ("Unknown tool: " ++ "delete_event"))]
         isError := some true }, []) :=
  C2_unknown_tool envAuthorized emptyArgs "delete_event" (by decide) (by decide) (by decide)

/-- C10: every envelope produced by the CallTool boundary carries exactly one
content item and its type is `"text"`; on the error path `isError` is set to
`true`, and every success result is returned unchanged with no `isError` key. -/
theorem C10_result_shape (env : Env) (name : String) (args : Args) :
    ((handleCallTool env name args).1.content.map ContentItem.type = ["text"]) ∧
    (∀ msg log, dispatchInner env name args = (Except.error msg, log) →
      (handleCallTool env name args).1.isError = some true) ∧
    (∀ res log, dispatchInner env name args = (Except.ok res, log) →
      res.isError = none ∧ (handleCallTool env name args).1 = res) := by
  rcases dispatchInner_shape env name args with ⟨msg, log, h⟩ | ⟨t, log, h⟩
  · refine ⟨?_, ?_, ?_⟩
    · simp [handleCallTool, h, errResult]
    · intro msg2 log2 _
      simp [handleCallTool, h, errResult]
    · intro res log2 h2
      rw [h] at h2
      simp at h2
  · refine ⟨?_, ?_, ?_⟩
    · simp [handleCallTool, h]
    · intro msg2 log2 h2
      rw [h] at h2
      simp at h2
    · intro res log2 h2
      rw [h] at h2
      obtain ⟨h3, h4⟩ := Prod.mk.injEq .. ▸ h2
      cases Except.ok.injEq .. ▸ h3
      simp [handleCallTool, h]

/-- Witness for C10 at concrete inputs: the error path of an unknown tool
(one text item, `isError = true`) and the success path of `get_auth_url`
(one text item, no `isError` key). -/
theorem C10_result_shape_witness :
    ((handleCallTool envConfigured "nope" emptyArgs).1.content.map ContentItem.type = ["text"] ∧
      (handleCallTool envConfigured "nope" emptyArgs).1.isError = some true) ∧
    ((handleCallTool envConfigured "get_auth_url" emptyArgs).1.content.map ContentItem.type = ["text"] ∧
      (handleCallTool envConfigured "get_auth_url" emptyArgs).1.isError = none) := by
  refine ⟨⟨(C10_result_shape envConfigured "nope" emptyArgs).1, ?_⟩,
    ⟨(C10_result_shape envConfigured "get_auth_url" emptyArgs).1, ?_⟩⟩
  · exact (C10_result_shape envConfigured "nope" emptyArgs).2.1
      ("Unknown tool: " ++ "nope") [] rfl
  · exact ((C10_result_shape envConfigured "get_auth_url" emptyArgs).2.2 _ [] rfl).2 ▸
      ((C10_result_shape envConfigured "get_auth_url" emptyArgs).2.2 _ [] rfl).1

/-- C3 (evaluation of the code at the claim's failing input): a
`create_event` invocation with no arguments — in particular no `summary` —
still issues the remote insert call, with `summary` absent in the payload,
and when the remote accepts it the result is a success (no `isError` key),
contradicting the claim that the response is an error and no insert is
performed. -/
theorem C3_missing_summary_still_inserts :
    (handleCallTool envAuthorized "create_event" emptyArgs).2 =
      [RemoteReq.insertReq "primary" emptyInsertPayload] ∧
    emptyArgs.summary = none ∧
    (handleCallTool envAuthorized "create_event" emptyArgs).1.isError = none := by
  exact ⟨rfl, rfl, rfl⟩

/-- C4: a `list_events` invocation carrying no arguments, in any environment
whose credential state is Authorized, issues exactly one remote list call
whose arguments are `calendarId = "primary"`, `timeMin = now` (the current
instant in ISO-8601), `timeMax` absent, `maxResults = 10` (plus the fixed
`singleEvents = true`, `orderBy = "startTime"`). -/
theorem C4_list_defaults (env : Env) (rt : String)
    (h : env.cred.refreshToken = some rt) :
    (handleCallTool env "list_events" emptyArgs).2 =
      [RemoteReq.listReq "primary" env.now none 10 true "startTime"] := by
  obtain ⟨now, ⟨rtOpt⟩, li, ins⟩ := env
  simp only [Cred.refreshToken] at h
  subst h
  cases li with
  | error e => rfl
  | ok items => rfl

/-- Witness for C4 at a concrete authorized environment. -/
theorem C4_list_defaults_witness :
    (handleCallTool envAuthorized "list_events" emptyArgs).2 =
      [RemoteReq.listReq "primary" "2024-01-01T00:00:00.000Z" none 10 true "startTime"] :=
  C4_list_defaults envAuthorized "rt" rfl

/-- C5 counterexample: the dispatch switch forwards the arguments object to
the handler unchanged — no validation, no defaulting — so on a `create_event`
invocation lacking the required `summary` the handler runs anyway: it
receives `summary = none` and issues the remote insert with it. This refutes
the claim that validation/defaulting happen in the Dispatch Engine before the
handler and that no handler sees arguments violating its required fields. -/
theorem C5_dispatch_no_validation_counterexample :
    dispatchInner envAuthorized "create_event" emptyArgs = createEvent envAuthorized emptyArgs ∧
    emptyArgs.summary = none ∧
    (insertRequest emptyArgs = RemoteReq.insertReq "primary" emptyInsertPayload ∧
      emptyInsertPayload.summary = none) ∧
    (handleCallTool envAuthorized "create_event" emptyArgs).2 = [insertRequest emptyArgs] := by
  exact ⟨rfl, rfl, ⟨rfl, rfl⟩, rfl⟩

/-- C5 as amended: the dispatch switch passes the arguments through to the
handlers unchanged and performs no validation or defaulting; defaulting of
optional fields happens inside each handler at the remote-call site, and
required fields are validated nowhere, so a handler can receive arguments
missing its capability's declared required fields. -/
theorem C5_defaulting_in_handlers (env : Env) (args : Args) :
    (dispatchInner env "list_events" args = listEvents env args ∧
      dispatchInner env "create_event" args = createEvent env args) ∧
    (listRequest env emptyArgs = RemoteReq.listReq "primary" env.now none 10 true "startTime") ∧
    (∀ rt, env.cred.refreshToken = some rt →
      (createEvent env emptyArgs).2 = [RemoteReq.insertReq "primary" emptyInsertPayload] ∧
      (insertPayloadOf emptyArgs).summary = none) := by
  refine ⟨⟨rfl, rfl⟩, rfl, ?_⟩
  intro rt h
  obtain ⟨now, ⟨rtOpt⟩, li, ins⟩ := env
  simp only [Cred.refreshToken] at h
  subst h
  cases ins with
  | error e => exact ⟨rfl, rfl⟩
  | ok data => exact ⟨rfl, rfl⟩

/-- Witness for C5's amended statement at a concrete authorized environment. -/
theorem C5_defaulting_in_handlers_witness :
    dispatchInner envAuthorized "create_event" emptyArgs = createEvent envAuthorized emptyArgs ∧
    (createEvent envAuthorized emptyArgs).2 = [RemoteReq.insertReq "primary" emptyInsertPayload] :=
  ⟨(C5_defaulting_in_handlers envAuthorized emptyArgs).1.2,
    ((C5_defaulting_in_handlers envAuthorized emptyArgs).2.2 "rt" rfl).1⟩

/-- C6: with no refresh token configured, any `list_events` or `create_event`
invocation is answered with an error envelope and no remote request is
issued; conversely a success of either handler implies a refresh token is
configured (only the Authorized state permits success). -/
theorem C6_auth_required :
    (∀ env args name, env.cred.refreshToken = none →
      (name = "list_events" ∨ name = "create_event") →
      (handleCallTool env name args).1.isError = some true ∧
      (handleCallTool env name args).2 = []) ∧
    (∀ env args name, (name = "list_events" ∨ name = "create_event") →
      (handleCallTool env name args).1.isError = none →
      env.cred.refreshToken ≠ none) := by
  have base : ∀ env args name, env.cred.refreshToken = none →
      (name = "list_events" ∨ name = "create_event") →
      (handleCallTool env name args).1.isError = some true ∧
      (handleCallTool env name args).2 = [] := by
    intro env args name htok hname
    obtain ⟨now, ⟨rtOpt⟩, li, ins⟩ := env
    simp only [Cred.refreshToken] at htok
    subst htok
    rcases hname with h | h <;> subst h <;> exact ⟨rfl, rfl⟩
  refine ⟨base, ?_⟩
  intro env args name hname hok htok
  have := (base env args name htok hname).1
  rw [hok] at this
  cases this

/-- Witness for C6: at the Configured (token-less) state `list_events` is an
error with an empty remote log, and at the Authorized state a successful
`create_event` exhibits the converse direction. -/
theorem C6_auth_required_witness :
    ((handleCallTool envConfigured "list_events" emptyArgs).1.isError = some true ∧
      (handleCallTool envConfigured "list_events" emptyArgs).2 = []) ∧
    envAuthorized.cred.refreshToken ≠ none :=
  ⟨C6_auth_required.1 envConfigured emptyArgs "list_events" rfl (Or.inl rfl),
    C6_auth_required.2 envAuthorized emptyArgs "create_event" (Or.inr rfl) rfl⟩

/-- C7 counterexample: the catalog is not in the claimed order
`get_auth_url, list_events, create_event` — its first entry is
`list_events` — and `timeMin` carries no declared default in the schema. -/
theorem C7_catalog_order_counterexample :
    ¬ (listTools.map ToolDecl.name = ["get_auth_url", "list_events", "create_event"]) ∧
    ¬ ((listTools.map fun t => t.inputSchema.properties.lookup "timeMin") =
        [some { type := "string"
                description := some "Lower bound for event start time (ISO 8601)"
                default := some (SchemaDefault.str "now") }, none, none]) := by
  constructor <;> decide

/-- C7 as amended: the catalog lists the three capabilities in the source's
order `list_events, create_event, get_auth_url`; `create_event` declares the
required fields `summary, startDateTime, endDateTime` (the other two declare
none); the only schema-declared defaults are `calendarId = "primary"` (on
both calendar tools) and `maxResults = 10`; `timeMin` is declared without a
default (its now-default is applied at runtime inside the handler); and the
descriptions and property types are the source's. -/
theorem C7_catalog_contents :
    listTools.map ToolDecl.name = ["list_events", "create_event", "get_auth_url"] ∧
    (listTools.map fun t => t.inputSchema.required) =
      [[], ["summary", "startDateTime", "endDateTime"], []] ∧
    (listTools.map fun t => t.inputSchema.properties.map fun p => (p.1, p.2.default)) =
      [ [("calendarId", some (SchemaDefault.str "primary")),
         ("maxResults", some (SchemaDefault.num 10)), ("timeMin", none), ("timeMax", none)]
      , [("calendarId", some (SchemaDefault.str "primary")), ("summary", none),
         ("description", none), ("startDateTime", none), ("endDateTime", none), ("attendees", none)]
      , [] ] ∧
    listTools.map ToolDecl.description =
      ["List upcoming events from Google Calendar",
       "Create a new event in Google Calendar",
       "Get OAuth2 authorization URL for Google Calendar access"] ∧
    (listTools.map fun t => t.inputSchema.type) = ["object", "object", "object"] := by
  refine ⟨rfl, rfl, rfl, rfl, rfl⟩

/-- C8: `get_auth_url` succeeds in every credential state (every `env`): it
issues no remote request, returns a single text item with no `isError` key,
and the text embeds the generated URL, whose query string requests
`access_type=offline` and the Google Calendar scope. -/
theorem C8_get_auth_url (env : Env) (args : Args) :
    (handleCallTool env "get_auth_url" args).2 = [] ∧
    (handleCallTool env "get_auth_url" args).1 =
      { content := [ContentItem.mk "text"
          ("Please visit this URL to authorize the application:\n" ++
            generateAuthUrl "offline" calendarScopes ++
            "\n\nAfter authorization, set the GOOGLE_REFRESH_TOKEN environment variable with the refresh token.")]
        isError := none } ∧
    generateAuthUrl "offline" calendarScopes =
      "https://accounts.google.com/o/oauth2/v2/auth?" ++ "access_type=offline" ++
        "&scope=" ++ "https://www.googleapis.com/auth/calendar" := by
  refine ⟨rfl, rfl, rfl⟩

/-- An event record carrying both a (JS-falsy) empty `dateTime` and an
all-day `date` in its `start`. -/
def bothPresentEvent : RemoteEvent :=
  { id := some "e0"
    start := some { dateTime := some "", date := some "2024-01-01" }
    «end» := some { dateTime := some "2024-01-01T10:00:00Z", date := some "2024-01-02" } }

/-- C9 counterexample: on a record whose `start` carries both fields, with
`dateTime` the empty string, the reshaping map does NOT prefer the timed
value: JS `||` is falsy-aware, so the empty `dateTime` falls back to the
all-day `date`. -/
theorem C9_prefers_dateTime_counterexample :
    bothPresentEvent.start = some { dateTime := some "", date := some "2024-01-01" } ∧
    (reshapeEvent bothPresentEvent).start = some "2024-01-01" ∧
    ¬ ((reshapeEvent bothPresentEvent).start = some "") := by
  refine ⟨rfl, rfl, by decide⟩

/-- C9 as amended: the `list_events` handler's success text is the
serialization of the remote records mapped through `reshapeEvent`, and
`reshapeEvent` produces the view model `{id, summary, start, end,
description, attendees}`, preferring the timed `dateTime` over the all-day
`date` whenever both are present and the `dateTime` string is non-empty (an
empty, JS-falsy `dateTime` falls back to `date`). -/
theorem C9_reshape (e : RemoteEvent) (st et : RemoteEventTime) (ds de : String)
    (hs : e.start = some st) (he : e.«end» = some et)
    (hds : st.dateTime = some ds) (hde : et.dateTime = some de)
    (hnes : ds ≠ "") (hnee : de ≠ "") :
    reshapeEvent e =
      { id := e.id
        summary := e.summary
        start := some ds
        «end» := some de
        description := e.description
        attendees := e.attendees.map (List.map RemoteAttendee.email) } ∧
    (∀ env args evs rt, env.remote.listItems = Except.ok (some evs) →
      env.cred.refreshToken = some rt →
      (handleCallTool env "list_events" args).1 =
        { content := [ContentItem.mk "text" (serializeEvents (evs.map reshapeEvent))]
          isError := none }) := by
  constructor
  · simp [reshapeEvent, hs, he, hds, hde, jsOrOpt, hnes, hnee]
  · intro env args evs rt hli htok
    obtain ⟨now, ⟨rtOpt⟩, li, ins⟩ := env
    simp only [Cred.refreshToken] at htok
    simp only [RemoteBehavior.listItems] at hli
    subst htok
    subst hli
    rfl

/-- Witness for C9's amended statement: a concrete record with both fields
present and non-empty `dateTime` reshapes to the timed values, and a concrete
authorized environment returning that record serializes its reshaping. -/
theorem C9_reshape_witness :
    reshapeEvent
        { id := some "e1", summary := some "S"
          start := some { dateTime := some "2024-01-01T10:00:00Z", date := some "2024-01-01" }
          «end» := some { dateTime := some "2024-01-01T11:00:00Z", date := some "2024-01-01" }
          description := none, attendees := none } =
      { id := some "e1", summary := some "S"
        start := some "2024-01-01T10:00:00Z", «end» := some "2024-01-01T11:00:00Z"
        description := none, attendees := none } :=
  (C9_reshape
    { id := some "e1", summary := some "S"
      start := some { dateTime := some "2024-01-01T10:00:00Z", date := some "2024-01-01" }
      «end» := some { dateTime := some "2024-01-01T11:00:00Z", date := some "2024-01-01" }
      description := none, attendees := none }
    { dateTime := some "2024-01-01T10:00:00Z", date := some "2024-01-01" }
    { dateTime := some "2024-01-01T11:00:00Z", date := some "2024-01-01" }
    "2024-01-01T10:00:00Z" "2024-01-01T11:00:00Z"
    rfl rfl rfl rfl (by decide) (by decide)).1

end GCalMCP
